import Mathlib

/-!
Verification of the Rellax parallax engine (src/rellax.js) against its
natural-language specification.

The JavaScript source is shallowly embedded: numbers are modelled as
rationals (ℚ), strings as lists of characters, DOM reads as explicit
parameters, and the per-frame loop as a state-transition function.
Definitions follow the source line by line; each one cites the symbol it
embeds.
-/

/-- JS `a || b` on numbers: 0 is the falsy numeric value in range. -/
def jsOr (a b : ℚ) : ℚ := if a = 0 then b else a

/-- JS `Math.round`: round half up, i.e. floor of `v + 1/2`. -/
def jsRound (v : ℚ) : ℤ := (v + 1/2).floor

/-- Whitespace characters matched by the regex `\s` (ASCII portion). -/
def isWS (c : Char) : Bool :=
  c == ' ' || c == '\t' || c == '\n' || c == '\r' || c == '\x0b' || c == '\x0c'

/-- Does `pat` occur at the very start of `s`? (prefix test for `indexOf`). -/
def leadsWith : List Char → List Char → Bool
  | [], _ => true
  | _ :: _, [] => false
  | p :: ps, c :: cs => p == c && leadsWith ps cs

/-- JS `String.prototype.indexOf`: index of the first occurrence of `pat`
in `s`, `none` when absent (the source compares the result with `-1`). -/
def firstIndexOf? : List Char → List Char → Option Nat
  | [], pat => if pat = [] then some 0 else none
  | h :: t, pat =>
    if leadsWith pat (h :: t) then some 0
    else (firstIndexOf? t pat).map (· + 1)

/-- The merged option record (source: the `this.options` defaults object).
`wrapper` is `none` for the default `null`. -/
inductive WrapperOpt where
  | elem : WrapperOpt
  | selector : List Char → WrapperOpt
deriving DecidableEq

structure Options where
  speed : ℚ := -2
  center : Bool := false
  wrapper : Option WrapperOpt := none
  round : Bool := true
  vertical : Bool := true
  horizontal : Bool := false
deriving DecidableEq

/-- User-supplied options: `none` fields keep the default
(source: `Object.keys(options).forEach` merge). -/
structure UserOptions where
  speed : Option ℚ := none
  center : Option Bool := none
  wrapper : Option WrapperOpt := none
  round : Option Bool := none
  vertical : Option Bool := none
  horizontal : Option Bool := none
deriving DecidableEq

def mergeOptions (u : UserOptions) : Options :=
  { speed := u.speed.getD (-2)
    center := u.center.getD false
    wrapper := u.wrapper
    round := u.round.getD true
    vertical := u.vertical.getD true
    horizontal := u.horizontal.getD false }

/-- One tracked DOM element as the engine reads it: `data-rellax-*`
attributes (a `some` models a non-empty, hence truthy, attribute string),
bounding-client-rect position, the size fallback chain, and the inline
style text. -/
structure ElemInfo where
  attrPercentage : Option ℚ := none
  attrSpeed : Option ℚ := none
  attrZIndex : Option ℚ := none
  rectTop : ℚ := 0
  rectLeft : ℚ := 0
  clientHeight : ℚ := 0
  offsetHeight : ℚ := 0
  scrollHeight : ℚ := 0
  clientWidth : ℚ := 0
  offsetWidth : ℚ := 0
  scrollWidth : ℚ := 0
  styleCssText : List Char := []
deriving DecidableEq

/-- The cached per-element record built by `createBlock`. -/
structure Block where
  baseX : ℚ
  baseY : ℚ
  top : ℚ
  left : ℚ
  height : ℚ
  width : ℚ
  speed : ℚ
  style : List Char
  transform : List Char
  zIndex : ℚ
deriving DecidableEq

/-- Source: `updatePosition(percentageX, percentageY, speed)` — the pure
position mapper. `calc` rounds to an integer when `options.round` is set,
else to `Math.round(v * 100) / 100`. -/
def updatePosition (o : Options) (percentageX percentageY speed : ℚ) : ℚ × ℚ :=
  let calcRound : ℚ → ℚ := fun v =>
    if o.round then ((jsRound v : ℤ) : ℚ) else ((jsRound (v * 100) : ℤ) : ℚ) / 100
  (calcRound (speed * (100 * (1 - percentageX))),
   calcRound (speed * (100 * (1 - percentageY))))

/-- Source: the inline-transform extraction inside `createBlock`.
When `style.indexOf('transform') >= 0` the style is sliced from that
index, the delimiter is the following `;` (absent delimiter means slice
to end of string), the kept segment is `trimmedStyle.slice(11, delimiter)`
with all whitespace removed, and a single space is prepended. Otherwise
the stored transform is the empty string. -/
def extractTransform (style : List Char) : List Char :=
  match firstIndexOf? style ("transform".toList) with
  | none => []
  | some i =>
    let trimmedStyle := style.drop i
    let seg :=
      match firstIndexOf? trimmedStyle [';'] with
      | none => trimmedStyle.drop 11
      | some d => (trimmedStyle.take d).drop 11
    ' ' :: seg.filter (fun c => !(isWS c))

/-- Source: `createBlock(el)`. `wrapperPosY` is the already-resolved
vertical scroll of the container (`wrapper.scrollTop` or the document
fallback chain) and `pageXOffset` the resolved horizontal document
scroll; `screen` is the cached viewport `(x, y)`. -/
def createBlock (o : Options) (screen : ℚ × ℚ) (wrapperPosY pageXOffset : ℚ)
    (el : ElemInfo) : Block :=
  let attrP := el.attrPercentage
  let posY : ℚ :=
    if o.vertical then (if attrP.isSome || o.center then wrapperPosY else 0) else 0
  let posX : ℚ :=
    if o.horizontal then (if attrP.isSome || o.center then pageXOffset else 0) else 0
  let blockTop := posY + el.rectTop
  let blockLeft := posX + el.rectLeft
  let blockHeight := jsOr el.clientHeight (jsOr el.offsetHeight el.scrollHeight)
  let blockWidth := jsOr el.clientWidth (jsOr el.offsetWidth el.scrollWidth)
  let percentageY :=
    if o.center then (1 : ℚ)/2
    else match attrP with
      | some p => p
      | none => (posY - blockTop + screen.2) / (blockHeight + screen.2)
  let percentageX :=
    if o.center then (1 : ℚ)/2
    else match attrP with
      | some p => p
      | none => (posX - blockLeft + screen.1) / (blockWidth + screen.1)
  let speed := el.attrSpeed.getD o.speed
  let bases := updatePosition o percentageX percentageY speed
  { baseX := bases.1
    baseY := bases.2
    top := blockTop
    left := blockLeft
    height := blockHeight
    width := blockWidth
    speed := speed
    style := el.styleCssText
    transform := extractTransform el.styleCssText
    zIndex := el.attrZIndex.getD 0 }

/-- Source: the body of `animate` for one block — recompute the live
percentages from the current scroll `pos`, map them, and subtract the
stored base offset. Returns `(positionX, positionY)`. -/
def animatePosition (o : Options) (screen : ℚ × ℚ) (pos : ℚ × ℚ) (b : Block) : ℚ × ℚ :=
  let percentageY := (pos.2 - b.top + screen.2) / (b.height + screen.2)
  let percentageX := (pos.1 - b.left + screen.1) / (b.width + screen.1)
  let positions := updatePosition o percentageX percentageY b.speed
  (positions.1 - b.baseX, positions.2 - b.baseY)

/-- Source: the `translate3d(x, y, z)` write in `animate`, as structured
data `(x, y, z, appendedTransform)`: a disabled axis renders the literal
`'0'`, the Z component is the block's `zIndex`, and the block's preserved
inline transform is appended. -/
def renderedWrite (o : Options) (screen : ℚ × ℚ) (pos : ℚ × ℚ) (b : Block) :
    ℚ × ℚ × ℚ × List Char :=
  let pr := animatePosition o screen pos b
  (if o.horizontal then pr.1 else 0, if o.vertical then pr.2 else 0, b.zIndex, b.transform)

/-- The scroll offsets the environment exposes on a given tick
(`pageXOffset`/`scrollLeft` and `scrollTop`/`pageYOffset`, resolved). -/
structure ScrollEnv where
  x : ℚ
  y : ℚ
deriving DecidableEq

/-- The mutable runtime state of one instance: `this.pos`, `this.pause`,
the cached blocks, and the last transform written to each element. -/
structure FullState where
  posX : ℚ
  posY : ℚ
  pause : Bool
  blocks : List Block
  writes : List (ℚ × ℚ × ℚ × List Char)
deriving DecidableEq

/-- Source: `setPosition()`. It snapshots `prevPos`, assigns
`this.pos.y` from the environment — the source contains no assignment to
`this.pos.x` — and reports whether an enabled axis changed. -/
def setPosition (o : Options) (s : FullState) (env : ScrollEnv) : FullState × Bool :=
  let prevX := s.posX
  let prevY := s.posY
  let s1 := { s with posY := env.y }
  (s1, (decide (prevY ≠ s1.posY) && o.vertical) || (decide (prevX ≠ s1.posX) && o.horizontal))

/-- Source: `animate()` at the state level — rewrite every element's
transform from the current `this.pos`. -/
def animateState (o : Options) (screen : ℚ × ℚ) (s : FullState) : FullState :=
  { s with writes := s.blocks.map (renderedWrite o screen (s.posX, s.posY)) }

/-- Source: `update()` — one tick of the loop: run `setPosition()` (its
assignment to `this.pos` happens unconditionally), then `animate()` only
when the scroll changed and `this.pause === false`. -/
def update (o : Options) (screen : ℚ × ℚ) (s : FullState) (env : ScrollEnv) : FullState :=
  let r := setPosition o s env
  if r.2 && !r.1.pause then animateState o screen r.1 else r.1

/-- The window's resize-listener registry. JS function identities are
modelled as naturals: every call to `Function.prototype.bind` returns a
fresh function object, so each `bind` draws a fresh identity from a
counter. -/
structure ResizeListeners where
  fns : List Nat
deriving DecidableEq

def addEventListenerResize (w : ResizeListeners) (f : Nat) : ResizeListeners :=
  ⟨w.fns ++ [f]⟩

/-- `removeEventListener` removes only a listener with the exact same
function identity. -/
def removeEventListenerResize (w : ResizeListeners) (f : Nat) : ResizeListeners :=
  ⟨w.fns.filter (fun g => g ≠ f)⟩

/-- Source: the constructor's
`window.addEventListener('resize', this.onwindowResize.bind(this))` —
the `bind` call allocates the fresh function `c`. Returns the registry
and the advanced freshness counter. -/
def constructResize (w : ResizeListeners) (c : Nat) : ResizeListeners × Nat :=
  (addEventListenerResize w c, c + 1)

/-- Source: `destroy()`'s
`window.removeEventListener('resize', this.onwindowResize.bind(this))` —
this second `bind` call allocates another fresh function `c`, distinct
from the one registered at construction. -/
def destroyResize (w : ResizeListeners) (c : Nat) : ResizeListeners × Nat :=
  (removeEventListenerResize w c, c + 1)

/-- Constructor target: a direct element handle (`el instanceof
HTMLElement`) or a selector string. -/
inductive Target where
  | elem : ElemInfo → Target
  | selector : List Char → Target

/-- The ways construction can terminate abnormally. `invalidTarget` and
`invalidWrapper` are the two `throw new Error(...)` sites of the source;
`typeError` models a JS TypeError raised by dereferencing `undefined`. -/
inductive ConstructError where
  | invalidTarget : ConstructError
  | invalidWrapper : ConstructError
  | typeError : ConstructError
deriving DecidableEq

/-- The document environment the constructor reads. -/
structure Dom where
  queryAll : List Char → List ElemInfo
  innerW : ℚ := 0
  innerH : ℚ := 0
  scrollX : ℚ := 0
  scrollY : ℚ := 0

/-- The successfully constructed instance (the fields the claims need). -/
structure Inst where
  opts : Options
  elements : List ElemInfo
  blocks : List Block
  posY : ℚ
deriving DecidableEq

def rellaxSel : List Char := ".rellax".toList

/-- The global object (`self` = `window`) carries no `options` binding,
so the source's `self.options` evaluates to `undefined`. -/
def globalSelfOptions : Option Options := none

/-- Source: the `Rellax` constructor. `el = el || '.rellax'`; element
resolution (`[el]` for a node, else `querySelectorAll`); the zero-element
throw; then the wrapper branch. In the wrapper branch the source
evaluates `self.options.wrapper` where `self` is the global object:
`self.options` is `undefined`, so the member access throws a TypeError
before `document.querySelector` or the invalid-wrapper throw can run.
Finally `init()` caches blocks, sets the scroll position and renders. -/
def construct (dom : Dom) (el : Option Target) (u : UserOptions) :
    Except ConstructError Inst :=
  let o := mergeOptions u
  let target := el.getD (.selector rellaxSel)
  let elements :=
    match target with
    | .elem e => [e]
    | .selector s => dom.queryAll s
  if elements.isEmpty then .error .invalidTarget
  else
    match o.wrapper with
    | some (.selector _) =>
      match globalSelfOptions with
      | none => .error .typeError
      | some _ => .error .invalidWrapper
    | _ =>
      .ok
        { opts := o
          elements := elements
          blocks := elements.map (createBlock o (dom.innerW, dom.innerH) dom.scrollY dom.scrollX)
          posY := dom.scrollY }

/-- Modelled from the spec's words for comparison with `extractTransform`
(claim about the stored fragment): "everything between the `transform`
property name and its terminating semicolon, or end of string". -/
def specFragmentBetween (style : List Char) : List Char :=
  match firstIndexOf? style ("transform".toList) with
  | none => []
  | some i =>
    let rest := (style.drop i).drop ("transform".toList).length
    match firstIndexOf? rest [';'] with
    | none => rest
    | some j => rest.take j

/-! ### Helper lemmas -/

theorem firstIndexOf_single_not_mem (c : Char) (l : List Char) (h : c ∉ l) :
    firstIndexOf? l [c] = none := by
  induction l with
  | nil => rfl
  | cons a t ih =>
    rw [List.mem_cons, not_or] at h
    simp [firstIndexOf?, leadsWith, h.1, ih h.2]

theorem firstIndexOf_single_append (c : Char) (l r : List Char) (h : c ∉ l) :
    firstIndexOf? (l ++ c :: r) [c] = some l.length := by
  induction l with
  | nil => simp [firstIndexOf?, leadsWith]
  | cons a t ih =>
    rw [List.mem_cons, not_or] at h
    simp [firstIndexOf?, leadsWith, h.1, ih h.2]

/-! ### Claims -/

/-- C1: for an element in the default mode (no `data-rellax-percentage`
attribute and `center` off), the capture-time effective scroll is 0 on
both axes, and a render at that same scroll offset recomputes exactly
the capture-time seed percentage; `updatePosition` therefore returns the
stored base values and the translation after `baseOffset` subtraction is
`{0,0}` on both (hence on every enabled) axis. -/
theorem c1_default_anchor (o : Options) (screen : ℚ × ℚ) (wy px : ℚ) (el : ElemInfo)
    (hp : el.attrPercentage = none) (hc : o.center = false) :
    animatePosition o screen (0, 0) (createBlock o screen wy px el) = (0, 0) := by
  simp [animatePosition, createBlock, updatePosition, hp, hc]

theorem c1_default_anchor_witness :
    ({ rectTop := 3, rectLeft := 2, clientHeight := 10, clientWidth := 20 } : ElemInfo).attrPercentage = none
    ∧ ({} : Options).center = false
    ∧ animatePosition {} (4, 5) (0, 0)
        (createBlock {} (4, 5) 7 9
          { rectTop := 3, rectLeft := 2, clientHeight := 10, clientWidth := 20 }) = (0, 0) :=
  ⟨rfl, rfl, c1_default_anchor {} (4, 5) 7 9
    { rectTop := 3, rectLeft := 2, clientHeight := 10, clientWidth := 20 } rfl rfl⟩

/-- C2 counterexample: the claim says a tick while `pause` is true
leaves the state entirely unchanged, including `pos`; but `update` runs
`setPosition()` before the pause check, so a paused tick with a changed
vertical scroll offset still overwrites `pos.y`. -/
theorem c2_pause_counterexample :
    update {} (3, 4) (⟨0, 0, true, [], []⟩ : FullState) ⟨0, 5⟩ ≠
      (⟨0, 0, true, [], []⟩ : FullState) ∧
    (⟨0, 0, true, [], []⟩ : FullState).pause = true := by
  constructor
  · decide
  · rfl

/-- C2 (amended): while `pause` is true a tick never re-renders — the
blocks, the written element styles, `pos.x` and the pause flag are all
untouched — but `setPosition()` still runs and overwrites the stored
vertical scroll position with the environment's current offset. -/
theorem c2_paused_tick (o : Options) (screen : ℚ × ℚ) (s : FullState) (env : ScrollEnv)
    (h : s.pause = true) :
    update o screen s env = { s with posY := env.y } := by
  simp [update, setPosition, h]

theorem c2_paused_tick_witness :
    (⟨0, 0, true, [], []⟩ : FullState).pause = true ∧
    update {} (3, 4) (⟨0, 0, true, [], []⟩ : FullState) ⟨0, 5⟩ =
      { (⟨0, 0, true, [], []⟩ : FullState) with posY := 5 } :=
  ⟨rfl, c2_paused_tick {} (3, 4) ⟨0, 0, true, [], []⟩ ⟨0, 5⟩ rfl⟩

/-- C3: the source of `setPosition` contains no read of the container's
horizontal scroll offset and no assignment to `this.pos.x`, so with
`horizontal: true` and an unchanged vertical offset, moving the
container's horizontal scroll from 0 to 50 is not detected: the tick
reports no change and performs no re-render, leaving the state
identical. This contradicts the claim that every enabled axis is read
and compared each tick. -/
theorem c3_horizontal_scroll_ignored :
    update { horizontal := true } (3, 4) (⟨0, 0, false, [], []⟩ : FullState) ⟨50, 0⟩ =
      (⟨0, 0, false, [], []⟩ : FullState) ∧
    (setPosition { horizontal := true } (⟨0, 0, false, [], []⟩ : FullState) ⟨50, 0⟩).2 = false := by
  constructor
  · decide
  · decide

/-- C4: construction registers the bound function allocated by the first
`bind` call (identity 0); `destroy` passes `removeEventListener` a fresh
function from a second `bind` call (identity 1), which matches nothing,
so after `destroy` the resize listener registered at construction is
still subscribed — the registry is `[0]`, not empty. -/
theorem c4_listener_not_removed :
    (destroyResize (constructResize ⟨[]⟩ 0).1 (constructResize ⟨[]⟩ 0).2).1 =
      (⟨[0]⟩ : ResizeListeners) ∧
    (⟨[0]⟩ : ResizeListeners) ≠ (⟨[]⟩ : ResizeListeners) := by
  constructor
  · rfl
  · decide

/-- C6: for every percentage pair and speed, with `round = true` both
components returned by `updatePosition` are integers, and with
`round = false` both are integer multiples of 1/100, obtained as
`Math.round(v * 100) / 100` of the raw `speed * (100 * (1 - percentage))`. -/
theorem c6_rounding (o : Options) (pX pY s : ℚ) :
    (o.round = true → ∃ m n : ℤ, updatePosition o pX pY s = ((m : ℚ), (n : ℚ))) ∧
    (o.round = false → ∃ m n : ℤ, updatePosition o pX pY s = ((m : ℚ) / 100, (n : ℚ) / 100)) := by
  constructor
  · intro h
    exact ⟨jsRound (s * (100 * (1 - pX))), jsRound (s * (100 * (1 - pY))),
      by simp [updatePosition, h]⟩
  · intro h
    exact ⟨jsRound (s * (100 * (1 - pX)) * 100), jsRound (s * (100 * (1 - pY)) * 100),
      by simp [updatePosition, h]⟩

theorem c6_rounding_witness :
    (({} : Options).round = true ∧
      ∃ m n : ℤ, updatePosition {} (1/3) (1/7) 2 = ((m : ℚ), (n : ℚ))) ∧
    (({ round := false } : Options).round = false ∧
      ∃ m n : ℤ, updatePosition { round := false } (1/3) (1/7) 2 =
        ((m : ℚ) / 100, (n : ℚ) / 100)) :=
  ⟨⟨rfl, (c6_rounding {} (1/3) (1/7) 2).1 rfl⟩,
   ⟨rfl, (c6_rounding { round := false } (1/3) (1/7) 2).2 rfl⟩⟩

/-- C7: with `center: true`, `createBlock` is entirely independent of
the element's declared percentage attribute, and the base offset it
stores is `updatePosition` evaluated at percentage 1/2 on both axes. -/
theorem c7_center_pins (o : Options) (screen : ℚ × ℚ) (wy px : ℚ) (el : ElemInfo)
    (p' : Option ℚ) (h : o.center = true) :
    createBlock o screen wy px el =
      createBlock o screen wy px { el with attrPercentage := p' } ∧
    (createBlock o screen wy px el).baseX =
      (updatePosition o (1/2) (1/2) (el.attrSpeed.getD o.speed)).1 ∧
    (createBlock o screen wy px el).baseY =
      (updatePosition o (1/2) (1/2) (el.attrSpeed.getD o.speed)).2 := by
  refine ⟨?_, ?_, ?_⟩ <;> simp [createBlock, h]

theorem c7_center_pins_witness :
    ({ center := true } : Options).center = true ∧
    (createBlock { center := true } (4, 6) 11 13 ({} : ElemInfo) =
        createBlock { center := true } (4, 6) 11 13
          { ({} : ElemInfo) with attrPercentage := some 3 } ∧
      (createBlock { center := true } (4, 6) 11 13 ({} : ElemInfo)).baseX =
        (updatePosition { center := true } (1/2) (1/2)
          (({} : ElemInfo).attrSpeed.getD ({ center := true } : Options).speed)).1 ∧
      (createBlock { center := true } (4, 6) 11 13 ({} : ElemInfo)).baseY =
        (updatePosition { center := true } (1/2) (1/2)
          (({} : ElemInfo).attrSpeed.getD ({ center := true } : Options).speed)).2) :=
  ⟨rfl, c7_center_pins { center := true } (4, 6) 11 13 {} (some 3) rfl⟩

/-- C9: `updatePosition` applied to identical percentage inputs on both
axes returns equal components (formula symmetry). -/
theorem c9_axis_symmetry (o : Options) (p s : ℚ) :
    (updatePosition o p p s).1 = (updatePosition o p p s).2 := rfl

/-- C10: with no target argument the constructor defaults to the
selector `.rellax` before element resolution, and (with no wrapper
option in play) construction succeeds exactly when that selector
matches at least one element. -/
theorem c10_default_target (dom : Dom) (u : UserOptions) (hw : u.wrapper = none) :
    construct dom none u = construct dom (some (.selector rellaxSel)) u ∧
    ((∃ r, construct dom none u = Except.ok r) ↔ dom.queryAll rellaxSel ≠ []) := by
  constructor
  · rfl
  · rcases hE : dom.queryAll rellaxSel with _ | ⟨a, t⟩
    · simp [construct, hE]
    · simp [construct, hE, mergeOptions, hw]

def domOneMatch : Dom := { queryAll := fun s => if s = rellaxSel then [{}] else [] }

theorem c10_default_target_witness :
    ({} : UserOptions).wrapper = none ∧
    (construct domOneMatch none {} = construct domOneMatch (some (.selector rellaxSel)) {} ∧
      ((∃ r, construct domOneMatch none {} = Except.ok r) ↔
        domOneMatch.queryAll rellaxSel ≠ [])) :=
  ⟨rfl, c10_default_target domOneMatch {} rfl⟩

/-- C5: with a selector-string wrapper option that matches no element,
construction does fail synchronously — but by dereferencing
`self.options` (the global object's absent `options` binding), which
throws a TypeError before any wrapper lookup on the instance's own
option; the `InvalidWrapperError` throw is unreachable. -/
theorem c5_wrapper_typeerror :
    construct domOneMatch (some (.selector rellaxSel))
      { wrapper := some (.selector ".nope".toList) } =
      .error .typeError ∧
    ConstructError.typeError ≠ ConstructError.invalidWrapper := by
  constructor
  · rfl
  · decide

/-- The text `transform: ` (property name, colon, one space) — the
11-character head whose length the source's `slice(11, delimiter)`
hard-codes. -/
def tfmDeclHead : List Char := "transform: ".toList

/-- C8 counterexample: on the style text `transform:abc;` the source
stores `" bc"` (slicing 11 characters past the start of the match eats
the colon and the value's first character), which is not the text
between the property name and its terminating semicolon (`":abc"`). -/
theorem c8_fragment_counterexample :
    extractTransform ("transform:abc;".toList) ≠
      specFragmentBetween ("transform:abc;".toList) := by
  decide

/-- C8 (amended): extraction is a total function (it cannot throw).
When the style contains `transform: ` (colon and one space) at the first
occurrence of `transform`, followed by a semicolon-free value `v`, the
stored fragment is one space followed by `v` with all whitespace
removed, whether the declaration is terminated by a semicolon or runs to
the end of the string. -/
theorem c8_transform_extract (p v q p2 v2 : List Char)
    (h1 : firstIndexOf? (p ++ tfmDeclHead ++ v ++ ';' :: q) ("transform".toList) =
      some p.length)
    (hv : ';' ∉ v)
    (h2 : firstIndexOf? (p2 ++ tfmDeclHead ++ v2) ("transform".toList) = some p2.length)
    (hv2 : ';' ∉ v2) :
    extractTransform (p ++ tfmDeclHead ++ v ++ ';' :: q) =
      ' ' :: v.filter (fun c => !(isWS c)) ∧
    extractTransform (p2 ++ tfmDeclHead ++ v2) =
      ' ' :: v2.filter (fun c => !(isWS c)) := by
  constructor
  · have hnot : ';' ∉ tfmDeclHead ++ v := by
      rw [List.mem_append]
      rintro (hmem | hmem)
      · revert hmem; decide
      · exact hv hmem
    have hsemi : firstIndexOf? ((tfmDeclHead ++ v) ++ ';' :: q) [';'] =
        some (tfmDeclHead ++ v).length :=
      firstIndexOf_single_append ';' (tfmDeclHead ++ v) q hnot
    have htake : ((tfmDeclHead ++ v) ++ ';' :: q).take (tfmDeclHead ++ v).length =
        tfmDeclHead ++ v := List.take_left _ _
    have hdrop11 : (tfmDeclHead ++ v).drop 11 = v := List.drop_left' (by decide)
    have hdropP : (p ++ tfmDeclHead ++ v ++ ';' :: q).drop p.length =
        (tfmDeclHead ++ v) ++ ';' :: q := by
      rw [List.append_assoc p tfmDeclHead v, List.append_assoc p (tfmDeclHead ++ v) (';' :: q)]
      exact List.drop_left _ _
    simp only [extractTransform, h1, hdropP, hsemi, htake, hdrop11]
  · have hnot2 : ';' ∉ tfmDeclHead ++ v2 := by
      rw [List.mem_append]
      rintro (hmem | hmem)
      · revert hmem; decide
      · exact hv2 hmem
    have hsemi2 : firstIndexOf? (tfmDeclHead ++ v2) [';'] = none :=
      firstIndexOf_single_not_mem ';' (tfmDeclHead ++ v2) hnot2
    have hdrop11 : (tfmDeclHead ++ v2).drop 11 = v2 := List.drop_left' (by decide)
    have hdropP2 : (p2 ++ tfmDeclHead ++ v2).drop p2.length = tfmDeclHead ++ v2 := by
      rw [List.append_assoc p2 tfmDeclHead v2]
      exact List.drop_left _ _
    simp only [extractTransform, h2, hdropP2, hsemi2, hdrop11]

def c8pre : List Char := "color:red; ".toList
def c8val : List Char := "rotate(45deg) scale(2)".toList
def c8post : List Char := " color:blue".toList
def c8pre2 : List Char := "margin:0;".toList
def c8val2 : List Char := "translateX(4px)".toList

theorem c8_transform_extract_witness :
    firstIndexOf? (c8pre ++ tfmDeclHead ++ c8val ++ ';' :: c8post) ("transform".toList) =
      some c8pre.length ∧
    ';' ∉ c8val ∧
    firstIndexOf? (c8pre2 ++ tfmDeclHead ++ c8val2) ("transform".toList) =
      some c8pre2.length ∧
    ';' ∉ c8val2 ∧
    extractTransform (c8pre ++ tfmDeclHead ++ c8val ++ ';' :: c8post) =
      ' ' :: c8val.filter (fun c => !(isWS c)) ∧
    extractTransform (c8pre2 ++ tfmDeclHead ++ c8val2) =
      ' ' :: c8val2.filter (fun c => !(isWS c)) := by
  have h1 : firstIndexOf? (c8pre ++ tfmDeclHead ++ c8val ++ ';' :: c8post)
      ("transform".toList) = some c8pre.length := by decide
  have hv : ';' ∉ c8val := by decide
  have h2 : firstIndexOf? (c8pre2 ++ tfmDeclHead ++ c8val2) ("transform".toList) =
      some c8pre2.length := by decide
  have hv2 : ';' ∉ c8val2 := by decide
  exact ⟨h1, hv, h2, hv2,
    (c8_transform_extract c8pre c8val c8post c8pre2 c8val2 h1 hv h2 hv2).1,
    (c8_transform_extract c8pre c8val c8post c8pre2 c8val2 h1 hv h2 hv2).2⟩
